import Mathlib

/-!
Verification of the backend service in `src/main.py` (FastAPI glue code):
shallow embedding of the route handlers `create_lead` (POST /api/leads),
`test_database` (GET /test), `get_schema` (GET /schema), `read_root` (GET /)
and `hello` (GET /api/hello), with theorems settling the specified behaviour.

External collaborators (the `schemas.Lead` pydantic model, the
`database.create_document` function and the database handle `database.db`)
are modelled as explicit parameters: an `Option` for a collaborator that may
fail to be wired at startup, and `Except`-valued functions for calls that may
throw. Python exceptions are `Except.error` carrying `str(e)`.
-/

namespace Backend

/-- JSON values, the shape of an untyped request payload (`lead: Any`). -/
inductive Json where
  | null : Json
  | bool (b : Bool) : Json
  | num (n : Int) : Json
  | str (s : String) : Json
  | arr (elems : List Json) : Json
  | obj (fields : List (String × Json)) : Json

/-- Result of the POST /api/leads handler: either the success body
`\x7b"status": "ok", "id": lead_id\x7d` or `HTTPException(status_code, detail)`. -/
inductive LeadResult where
  | ok (status : String) (id : String) : LeadResult
  | httpError (code : Nat) (detail : String) : LeadResult
deriving DecidableEq

/-- The `str(e)` of the `TypeError` Python raises for `Lead(**lead)` when
`lead` is not a key-value mapping (e.g. a JSON array or scalar). -/
def starUnpackErr : String := "argument after ** must be a mapping"

/-- `Lead(**lead)` from `main.py` line 89: the `**` unpacking requires the
payload to be a mapping (raising a `TypeError` otherwise), and then the
pydantic validator (modelled abstractly as `validate`, since `schemas.py` is
an external collaborator) builds the typed value or raises. -/
def constructLead {M : Type} (validate : List (String × Json) → Except String M) :
    Json → Except String M
  | Json.obj fields => validate fields
  | _ => Except.error starUnpackErr

/-- The POST /api/leads handler (`main.py` lines 81-97). `leadSchema` is the
`Lead` class (None when the import at lines 73-78 failed), `createDocument`
is `database.create_document` (None likewise). The second component of the
result is the log of persistence calls made: each entry records the kind
string and the validated value passed to `create_document`. -/
def create_lead {M : Type}
    (leadSchema : Option (List (String × Json) → Except String M))
    (createDocument : Option (String → M → Except String String))
    (lead : Json) : LeadResult × List (String × M) :=
  match leadSchema, createDocument with
  | some validate, some cd =>
    match constructLead validate lead with
    | Except.error e => (LeadResult.httpError 422 e, [])
    | Except.ok lead_model =>
      match cd "lead" lead_model with
      | Except.ok lead_id => (LeadResult.ok "ok" lead_id, [("lead", lead_model)])
      | Except.error e => (LeadResult.httpError 500 e, [("lead", lead_model)])
  | _, _ => (LeadResult.httpError 500 "Database not configured", [])

/-- C1: for every payload that fails validation against the Lead schema, the
POST /api/leads handler returns a 422 error carrying the validator's message,
and `create_document` is never called (the persistence-call log is empty). -/
theorem create_lead_invalid_is_422_no_persist {M : Type}
    (validate : List (String × Json) → Except String M)
    (cd : String → M → Except String String)
    (fields : List (String × Json)) (e : String)
    (h : validate fields = Except.error e) :
    create_lead (some validate) (some cd) (Json.obj fields) =
      (LeadResult.httpError 422 e, ([] : List (String × M))) := by
  simp [create_lead, constructLead, h]

/-- Witness for C1 at a concrete rejecting validator and payload. -/
theorem create_lead_invalid_is_422_no_persist_witness :
    create_lead (some (fun _ => (Except.error "field required" : Except String Unit)))
        (some (fun _ _ => Except.ok "id1")) (Json.obj []) =
      (LeadResult.httpError 422 "field required", []) :=
  create_lead_invalid_is_422_no_persist
    (fun _ => (Except.error "field required" : Except String Unit))
    (fun _ _ => Except.ok "id1") [] "field required" rfl

/-- C2: for every payload that validates successfully (schema and persistence
wired, persistence succeeding with a non-empty id), POST /api/leads returns
the 200 body with status "ok" and that id, and exactly one `create_document`
call occurs, with kind "lead" and the validated value. -/
theorem create_lead_valid_is_ok_one_persist {M : Type}
    (validate : List (String × Json) → Except String M)
    (cd : String → M → Except String String)
    (fields : List (String × Json)) (m : M) (lead_id : String)
    (hv : validate fields = Except.ok m)
    (hc : cd "lead" m = Except.ok lead_id)
    (hid : lead_id ≠ "") :
    create_lead (some validate) (some cd) (Json.obj fields) =
      (LeadResult.ok "ok" lead_id, [("lead", m)]) ∧ lead_id ≠ "" := by
  refine ⟨?_, hid⟩
  simp [create_lead, constructLead, hv, hc]

/-- Witness for C2 at a concrete accepting validator and persistence stub. -/
theorem create_lead_valid_is_ok_one_persist_witness :
    create_lead (some (fun _ => (Except.ok () : Except String Unit)))
        (some (fun _ _ => Except.ok "abc123")) (Json.obj [("name", Json.str "Ada")]) =
      (LeadResult.ok "ok" "abc123", [("lead", ())]) ∧ "abc123" ≠ "" :=
  create_lead_valid_is_ok_one_persist
    (fun _ => (Except.ok () : Except String Unit))
    (fun _ _ => Except.ok "abc123") [("name", Json.str "Ada")] () "abc123"
    rfl rfl (by decide)

/-- C3: if the Lead schema or the persistence collaborator is not wired, the
handler fails with the fixed 500 "Database not configured" error, performs no
persistence call, and its result is independent of the payload (the payload is
never inspected). -/
theorem create_lead_misconfigured_500 {M : Type}
    (leadSchema : Option (List (String × Json) → Except String M))
    (createDocument : Option (String → M → Except String String))
    (hmis : leadSchema = none ∨ createDocument = none)
    (lead lead2 : Json) :
    create_lead leadSchema createDocument lead =
      (LeadResult.httpError 500 "Database not configured", ([] : List (String × M))) ∧
    create_lead leadSchema createDocument lead =
      create_lead leadSchema createDocument lead2 := by
  rcases hmis with h | h
  · subst h; cases createDocument <;> exact ⟨rfl, rfl⟩
  · subst h; cases leadSchema <;> exact ⟨rfl, rfl⟩

/-- Witness for C3 with the schema collaborator missing. -/
theorem create_lead_misconfigured_500_witness :
    create_lead (none : Option (List (String × Json) → Except String Unit))
        (some (fun _ _ => Except.ok "x")) (Json.obj []) =
      (LeadResult.httpError 500 "Database not configured", []) :=
  (create_lead_misconfigured_500
    (none : Option (List (String × Json) → Except String Unit))
    (some (fun _ _ => Except.ok "x")) (Or.inl rfl) (Json.obj []) Json.null).1

/-- The database handle `database.db` as the prober consumes it: an optional
`name` attribute (`none` models `hasattr(db, 'name')` being false) and a
`list_collection_names()` call that either returns a list or throws. -/
structure DbHandle where
  name : Option String
  list_collection_names : Except String (List String)

/-- Outcome of the `from database import db` line inside the try block of
`test_database`: an `ImportError`, some other exception (caught by the
generic `except Exception` arm), or success with a possibly-None handle. -/
inductive DbImport where
  | importFailed : DbImport
  | otherError (e : String) : DbImport
  | resolved (db : Option DbHandle) : DbImport

/-- The structured report returned by GET /test (`main.py` lines 31-38).
`database_url` and `database_name` start as Python `None`, hence `Option`. -/
structure TestResponse where
  backend : String
  database : String
  database_url : Option String
  database_name : Option String
  connection_status : String
  collections : List String
deriving DecidableEq

/-- Python truthiness of an `os.getenv` result: `None` (unset) and the empty
string are falsy, every other string is truthy. -/
def truthy : Option String → Bool
  | none => false
  | some s => !(s == "")

/-- The environment-flag report of `main.py` lines 66-67:
`"✅ Set" if os.getenv(...) else "❌ Not Set"`. -/
def envFlag (v : Option String) : String :=
  if truthy v then "✅ Set" else "❌ Not Set"

/-- The body of `test_database` up to line 63: the initial report, the import
attempt, the handle inspection and the collection listing — everything before
the unconditional environment-variable check. -/
def probe_database (imp : DbImport) : TestResponse :=
  let response : TestResponse :=
    { backend := "✅ Running"
      database := "❌ Not Available"
      database_url := none
      database_name := none
      connection_status := "Not Connected"
      collections := [] }
  match imp with
  | DbImport.resolved (some db) =>
    let r : TestResponse :=
      { response with
        database := "✅ Available"
        database_url := some "✅ Configured"
        database_name := some (match db.name with
          | some nm => nm
          | none => "✅ Connected")
        connection_status := "Connected" }
    match db.list_collection_names with
    | Except.ok collections =>
      { r with collections := collections.take 10
               database := "✅ Connected & Working" }
    | Except.error e =>
      { r with database := "⚠️  Connected but Error: " ++ e.take 50 }
  | DbImport.resolved none =>
    { response with database := "⚠️  Available but not initialized" }
  | DbImport.importFailed =>
    { response with database := "❌ Database module not found (run enable-database first)" }
  | DbImport.otherError e =>
    { response with database := "❌ Error: " ++ e.take 50 }

/-- The GET /test handler (`main.py` lines 28-69): the probe above followed by
the unconditional environment check, which overwrites `database_url` and
`database_name` with the Set/Not-Set flags. `url_env`/`name_env` are the
values of `os.getenv("DATABASE_URL")` / `os.getenv("DATABASE_NAME")`. -/
def test_database (imp : DbImport) (url_env name_env : Option String) : TestResponse :=
  { probe_database imp with
    database_url := some (envFlag url_env)
    database_name := some (envFlag name_env) }

/-- C4: GET /test is total — it is defined as a total function of the import
state and the environment, so every branch yields a structured report — and
the two environment-flag fields are always computed and reported, whatever the
database-probing steps did; the backend field is always "✅ Running". -/
theorem test_database_total (imp : DbImport) (url_env name_env : Option String) :
    (test_database imp url_env name_env).database_url = some (envFlag url_env) ∧
    (test_database imp url_env name_env).database_name = some (envFlag name_env) ∧
    (test_database imp url_env name_env).backend = "✅ Running" := by
  refine ⟨rfl, rfl, ?_⟩
  rcases imp with _ | e | db
  · rfl
  · rfl
  · rcases db with _ | db
    · rfl
    · show (probe_database (DbImport.resolved (some db))).backend = "✅ Running"
      rcases db with ⟨nm, ls⟩
      rcases ls with e | cs <;> rfl

/-- C5: the database status of GET /test on each handle state: import failure
gives the "module not found" message (shown with its decomposition around that
phrase), a None handle gives "available but not initialized", a throwing
listing gives the warning embedding the first 50 characters of the error, and
a successful listing gives "Connected & Working" with the collections
truncated to at most 10 entries. -/
theorem test_database_status_cases (url_env name_env : Option String)
    (dbErr dbOk : DbHandle) (e : String) (cs : List String)
    (hErr : dbErr.list_collection_names = Except.error e)
    (hOk : dbOk.list_collection_names = Except.ok cs) :
    (test_database DbImport.importFailed url_env name_env).database =
      "❌ Database module not found (run enable-database first)" ∧
    (∃ p q, (test_database DbImport.importFailed url_env name_env).database =
      p ++ "module not found" ++ q) ∧
    (test_database (DbImport.resolved none) url_env name_env).database =
      "⚠️  Available but not initialized" ∧
    (test_database (DbImport.resolved (some dbErr)) url_env name_env).database =
      "⚠️  Connected but Error: " ++ e.take 50 ∧
    (test_database (DbImport.resolved (some dbOk)) url_env name_env).database =
      "✅ Connected & Working" ∧
    (test_database (DbImport.resolved (some dbOk)) url_env name_env).collections =
      cs.take 10 ∧
    (test_database (DbImport.resolved (some dbOk)) url_env name_env).collections.length ≤ 10 := by
  have hcoll : (test_database (DbImport.resolved (some dbOk)) url_env name_env).collections =
      cs.take 10 := by
    show (probe_database (DbImport.resolved (some dbOk))).collections = _
    simp [probe_database, hOk]
  refine ⟨rfl, ⟨"❌ Database ", " (run enable-database first)", ?_⟩, rfl, ?_, ?_, hcoll, ?_⟩
  · rfl
  · show (probe_database (DbImport.resolved (some dbErr))).database = _
    simp [probe_database, hErr]
  · show (probe_database (DbImport.resolved (some dbOk))).database = _
    simp [probe_database, hOk]
  · rw [hcoll, List.length_take]
    exact min_le_left _ _

/-- Witness for C5 at concrete handles: one whose listing throws, one whose
listing returns twelve collection names. -/
theorem test_database_status_cases_witness :
    (test_database (DbImport.resolved (some ⟨some "db0", Except.error "boom"⟩))
        none none).database = "⚠️  Connected but Error: " ++ "boom".take 50 ∧
    (test_database (DbImport.resolved (some ⟨some "db0",
        Except.ok ["c1", "c2", "c3", "c4", "c5", "c6", "c7", "c8", "c9", "c10", "c11", "c12"]⟩))
        none none).collections.length ≤ 10 :=
  ⟨(test_database_status_cases none none ⟨some "db0", Except.error "boom"⟩
      ⟨some "db0", Except.ok ["c1", "c2", "c3", "c4", "c5", "c6", "c7", "c8", "c9", "c10", "c11", "c12"]⟩
      "boom" ["c1", "c2", "c3", "c4", "c5", "c6", "c7", "c8", "c9", "c10", "c11", "c12"]
      rfl rfl).2.2.2.1,
   (test_database_status_cases none none ⟨some "db0", Except.error "boom"⟩
      ⟨some "db0", Except.ok ["c1", "c2", "c3", "c4", "c5", "c6", "c7", "c8", "c9", "c10", "c11", "c12"]⟩
      "boom" ["c1", "c2", "c3", "c4", "c5", "c6", "c7", "c8", "c9", "c10", "c11", "c12"]
      rfl rfl).2.2.2.2.2.2⟩

/-- C6: GET /test reports `database_url` as "Not Set" exactly when
DATABASE_URL is unset or empty and as "Set" for any non-empty value, likewise
`database_name` for DATABASE_NAME, and both reports are independent of the
database-handle state. -/
theorem test_database_env_independent (imp imp2 : DbImport)
    (url_env name_env : Option String) (s : String) (hs : s ≠ "") :
    (test_database imp url_env name_env).database_url = some (envFlag url_env) ∧
    (test_database imp url_env name_env).database_name = some (envFlag name_env) ∧
    envFlag none = "❌ Not Set" ∧
    envFlag (some "") = "❌ Not Set" ∧
    envFlag (some s) = "✅ Set" ∧
    (test_database imp url_env name_env).database_url =
      (test_database imp2 url_env name_env).database_url ∧
    (test_database imp url_env name_env).database_name =
      (test_database imp2 url_env name_env).database_name := by
  refine ⟨rfl, rfl, rfl, rfl, ?_, rfl, rfl⟩
  simp [envFlag, truthy, hs]

/-- Witness for C6 at a concrete non-empty environment value. -/
theorem test_database_env_independent_witness :
    (test_database DbImport.importFailed (some "mongodb:") none).database_url =
      some (envFlag (some "mongodb:")) ∧
    envFlag (some "mongodb:") = "✅ Set" :=
  ⟨(test_database_env_independent DbImport.importFailed DbImport.importFailed
      (some "mongodb:") none "mongodb:" (by decide)).1,
   (test_database_env_independent DbImport.importFailed DbImport.importFailed
      (some "mongodb:") none "mongodb:" (by decide)).2.2.2.2.1⟩

/-- Counterexample to C7: with a live handle named "mydb" and both environment
variables unset, the returned report's `database_name` is the environment flag
"❌ Not Set", not the handle's name, and the `database` field is not
"✅ Available" (the listing step upgraded it); the full report contains the
handle's identifying name nowhere. -/
theorem test_database_name_not_reported :
    test_database (DbImport.resolved (some ⟨some "mydb", Except.ok []⟩)) none none =
      { backend := "✅ Running"
        database := "✅ Connected & Working"
        database_url := some "❌ Not Set"
        database_name := some "❌ Not Set"
        connection_status := "Connected"
        collections := [] } ∧
    (test_database (DbImport.resolved (some ⟨some "mydb", Except.ok []⟩))
      none none).database_name ≠ some "mydb" ∧
    (test_database (DbImport.resolved (some ⟨some "mydb", Except.ok []⟩))
      none none).database ≠ "✅ Available" := by
  refine ⟨rfl, ?_, ?_⟩ <;> decide

/-- C7 amended: with a resolved non-null handle, the returned report has
connection_status "Connected"; the handler does read the handle's identifying
name (with the "✅ Connected" fallback) into the report's `database_name`
field — visible in the intermediate `probe_database` state — but the final
environment check overwrites that field with the Set/Not-Set flag, so the
returned report carries the environment flag instead of the name, and the
`database` field ends as "Connected & Working" or the listing warning, not
"Available". -/
theorem test_database_nonnull_handle_report (db : DbHandle)
    (url_env name_env : Option String) :
    (test_database (DbImport.resolved (some db)) url_env name_env).connection_status =
      "Connected" ∧
    (probe_database (DbImport.resolved (some db))).database_name =
      some (match db.name with
        | some nm => nm
        | none => "✅ Connected") ∧
    (test_database (DbImport.resolved (some db)) url_env name_env).database_name =
      some (envFlag name_env) ∧
    ((test_database (DbImport.resolved (some db)) url_env name_env).database =
        "✅ Connected & Working" ∨
      ∃ e, db.list_collection_names = Except.error e ∧
        (test_database (DbImport.resolved (some db)) url_env name_env).database =
          "⚠️  Connected but Error: " ++ e.take 50) := by
  rcases db with ⟨nm, ls⟩
  rcases ls with e | cs
  · exact ⟨rfl, rfl, rfl, Or.inr ⟨e, rfl, rfl⟩⟩
  · exact ⟨rfl, rfl, rfl, Or.inl rfl⟩

/-- One name exported by the `schemas` module as `get_schema` inspects it:
whether `isinstance(obj, type)` holds, whether `issubclass(obj, BaseModel)`
holds, whether the object is `BaseModel` itself, and what its
`model_json_schema()` call does (returns a description or throws). -/
structure ModuleEntry where
  isClass : Bool
  derivesBaseModel : Bool
  isBaseModel : Bool
  model_json_schema : Except String Json

/-- The filter of `main.py` line 108:
`isinstance(obj, type) and issubclass(obj, BaseModel) and obj is not BaseModel`. -/
def qualifies (e : ModuleEntry) : Bool :=
  e.isClass && e.derivesBaseModel && !e.isBaseModel

/-- Whether an `Except` value is a success. -/
def exceptIsOk {ε α : Type} : Except ε α → Bool
  | Except.ok _ => true
  | Except.error _ => false

/-- The `for name in dir(schemas_module)` loop of `main.py` lines 106-109,
accumulating the result mapping; a throwing `model_json_schema()` aborts the
whole loop with that exception. -/
def get_schema_go : List (String × ModuleEntry) → List (String × Json) →
    Except String (List (String × Json))
  | [], acc => Except.ok acc
  | (n, e) :: rest, acc =>
    if qualifies e then
      match e.model_json_schema with
      | Except.ok s => get_schema_go rest (acc ++ [(n, s)])
      | Except.error err => Except.error err
    else get_schema_go rest acc

/-- The GET /schema handler (`main.py` lines 101-112): `none` models the
`import schemas` failing; any exception during the enumeration is swallowed
and the empty mapping returned. -/
def get_schema (schemas_module : Option (List (String × ModuleEntry))) :
    List (String × Json) :=
  match schemas_module with
  | none => []
  | some entries =>
    match get_schema_go entries [] with
    | Except.ok result => result
    | Except.error _ => []

/-- Modelled from the spec: "one entry per validated-model class defined in
that module, excluding the base model type", keyed by class name and valued
by its JSON-Schema description. -/
def get_schema_spec (entries : List (String × ModuleEntry)) : List (String × Json) :=
  entries.filterMap fun p =>
    if qualifies p.2 then (p.2.model_json_schema.toOption).map (fun s => (p.1, s))
    else none

lemma get_schema_go_ok : ∀ (entries : List (String × ModuleEntry))
    (acc : List (String × Json)),
    (entries.all fun p => !qualifies p.2 || exceptIsOk p.2.model_json_schema) = true →
    get_schema_go entries acc = Except.ok (acc ++ get_schema_spec entries)
  | [], acc, _ => by simp [get_schema_go, get_schema_spec]
  | (n, e) :: rest, acc, hok => by
    simp only [List.all_cons, Bool.and_eq_true] at hok
    rcases hok with ⟨h1, h2⟩
    by_cases hq : qualifies e = true
    · have hik : exceptIsOk e.model_json_schema = true := by
        rw [hq] at h1; simpa using h1
      rcases hs : e.model_json_schema with err | s
      · rw [hs] at hik; simp [exceptIsOk] at hik
      · have ih := get_schema_go_ok rest (acc ++ [(n, s)]) h2
        simp [get_schema_go, get_schema_spec, hq, hs, ih, Except.toOption]
    · have ih := get_schema_go_ok rest acc h2
      simp only [Bool.not_eq_true] at hq
      simp [get_schema_go, get_schema_spec, hq, ih]

/-- C8: GET /schema returns the empty mapping when the schema module is
unavailable, and when every qualifying class's `model_json_schema()` succeeds
it returns exactly one entry per class deriving the base validated-model type
(the base type excluded), keyed by class name; any error during the
enumeration is swallowed into the empty mapping, so the endpoint never fails
visibly. -/
theorem get_schema_catalog (entries : List (String × ModuleEntry))
    (hok : (entries.all fun p => !qualifies p.2 || exceptIsOk p.2.model_json_schema) = true) :
    get_schema none = [] ∧
    get_schema (some entries) = get_schema_spec entries ∧
    (∀ es err, get_schema_go es [] = Except.error err → get_schema (some es) = []) := by
  refine ⟨rfl, ?_, ?_⟩
  · simp [get_schema, get_schema_go_ok entries [] hok]
  · intro es err h
    simp [get_schema, h]

/-- Witness for C8: a module with a qualifying Lead class, the base model
itself, and a non-class name yields exactly the Lead entry; a module whose
qualifying class throws during serialization yields the empty mapping. -/
theorem get_schema_catalog_witness :
    get_schema (some [("BaseModel", ⟨true, true, true, Except.ok Json.null⟩),
        ("Lead", ⟨true, true, false, Except.ok (Json.obj [])⟩),
        ("os", ⟨false, false, false, Except.error "not a model"⟩)]) =
      [("Lead", Json.obj [])] ∧
    get_schema (some [("Bad", ⟨true, true, false, Except.error "boom"⟩)]) = [] := by
  constructor
  · rw [(get_schema_catalog [("BaseModel", ⟨true, true, true, Except.ok Json.null⟩),
        ("Lead", ⟨true, true, false, Except.ok (Json.obj [])⟩),
        ("os", ⟨false, false, false, Except.error "not a model"⟩)] rfl).2.1]
    rfl
  · exact (get_schema_catalog [] rfl).2.2
      [("Bad", ⟨true, true, false, Except.error "boom"⟩)] "boom" rfl

/-- The GET / handler (`main.py` lines 18-20); the argument is one call. -/
def read_root (_call : Unit) : List (String × String) :=
  [("message", "Hello from FastAPI Backend!")]

/-- The GET /api/hello handler (`main.py` lines 23-25). -/
def hello (_call : Unit) : List (String × String) :=
  [("message", "Hello from the backend API!")]

/-- C9: GET / and GET /api/hello are constant functions returning the exact
literal bodies on every call, independent of any state. -/
theorem root_and_hello_constant (c c2 : Unit) :
    read_root c = [("message", "Hello from FastAPI Backend!")] ∧
    hello c = [("message", "Hello from the backend API!")] ∧
    read_root c = read_root c2 ∧
    hello c = hello c2 :=
  ⟨rfl, rfl, rfl, rfl⟩

/-- C10: every exception raised while constructing the Lead value — not only
schema-validation failures — is mapped by POST /api/leads to a 422 carrying
the exception's string, with no persistence call; in particular a payload
that is not a key-value mapping (a JSON array, string or number) raises the
`**`-unpacking `TypeError` and yields 422, not 500 or a framework error. -/
theorem create_lead_construct_error_422 {M : Type}
    (validate : List (String × Json) → Except String M)
    (cd : String → M → Except String String) (lead : Json) (e : String)
    (h : constructLead validate lead = Except.error e) :
    create_lead (some validate) (some cd) lead =
      (LeadResult.httpError 422 e, ([] : List (String × M))) ∧
    (∀ elems, create_lead (some validate) (some cd) (Json.arr elems) =
      (LeadResult.httpError 422 starUnpackErr, ([] : List (String × M)))) ∧
    (∀ s, create_lead (some validate) (some cd) (Json.str s) =
      (LeadResult.httpError 422 starUnpackErr, ([] : List (String × M)))) ∧
    (∀ n : Int, create_lead (some validate) (some cd) (Json.num n) =
      (LeadResult.httpError 422 starUnpackErr, ([] : List (String × M)))) := by
  refine ⟨?_, fun elems => rfl, fun s => rfl, fun n => rfl⟩
  simp [create_lead, h]

/-- Witness for C10 at a concrete non-mapping payload (a JSON array). -/
theorem create_lead_construct_error_422_witness :
    create_lead (some (fun _ => (Except.ok () : Except String Unit)))
        (some (fun _ _ => Except.ok "id9")) (Json.arr [Json.num 1]) =
      (LeadResult.httpError 422 starUnpackErr, []) :=
  (create_lead_construct_error_422 (fun _ => (Except.ok () : Except String Unit))
    (fun _ _ => Except.ok "id9") (Json.arr [Json.num 1]) starUnpackErr rfl).1

end Backend
